import Mathlib

/-!
Shallow embedding of the dermatology billing rules engine
(`src/dermbill/rules.py`) and proofs about its tier-resolution,
aggregation, destruction/biopsy coding, NCCI and modifier logic.

Python `float` values (lengths, diameters, wRVUs) are modelled as `ℚ`,
Python `int` as `ℤ`.  Python's `float('inf')` upper bound on the last
row of each tier table is modelled as the `none` case of an `Option ℚ`
bound, so that every value compares `≤` against it.
-/

namespace DermBill

/-- `RepairComplexity` enum from rules.py. -/
inductive RepairComplexity where
  | simple
  | intermediate
  | complex
  deriving DecidableEq

/-- `AnatomicGroup` enum from rules.py (GROUP_3 is declared but, as proved
below, never produced by `classify_anatomic_group`). -/
inductive AnatomicGroup where
  | group_1
  | group_2
  | group_3
  deriving DecidableEq

/-- `RepairInfo` dataclass from rules.py. -/
structure RepairInfo where
  length_cm : ℚ
  complexity : RepairComplexity
  anatomic_site : String
  anatomic_group : AnatomicGroup
  deriving DecidableEq

/-- `AggregatedRepair` dataclass from rules.py. -/
structure AggregatedRepair where
  complexity : RepairComplexity
  anatomic_group : AnatomicGroup
  total_length_cm : ℚ
  code : String
  wRVU : ℚ
  deriving DecidableEq

/-- Is `needle` a leading segment of `hay`?  (Char-list level helper for
Python's `in` substring operator.) -/
def leadsList (needle hay : List Char) : Bool :=
  match needle, hay with
  | [], _ => true
  | _ :: _, [] => false
  | a :: as, b :: bs => a == b && leadsList as bs

/-- Does `hay` contain `needle` as a contiguous substring?  Mirrors
Python's `needle in hay` on strings (empty needle always matches). -/
def containsSub (hay needle : List Char) : Bool :=
  match hay with
  | [] => needle.isEmpty
  | _ :: t => leadsList needle hay || containsSub t needle

/-- Python's `needle in hay` for strings. -/
def pyIn (needle hay : String) : Bool :=
  containsSub hay.toList needle.toList

/-- ASCII lowercase of one character: the effect of Python's
`str.lower()` on the ASCII site strings this engine handles. -/
def pyLowerChar (c : Char) : Char :=
  if 65 ≤ c.toNat ∧ c.toNat ≤ 90 then Char.ofNat (c.toNat + 32) else c

/-- Python's `s.lower()` (ASCII range). -/
def pyLower (s : String) : String :=
  ⟨s.data.map pyLowerChar⟩

/-- One row of a Python tier table `(threshold, code, wRVU)`;
`bound = none` models `float('inf')`. -/
structure TierEntry where
  bound : Option ℚ
  code : String
  wRVU : ℚ
  deriving DecidableEq

/-- `value <= threshold` where a `none` threshold is `float('inf')`. -/
def matchesBound (x : ℚ) : Option ℚ → Bool
  | none => true
  | some b => decide (x ≤ b)

/-- The `for threshold, code, wRVU in codes: if x <= threshold: return`
loop of rules.py; `none` when the loop falls through. -/
def scanTiers (x : ℚ) : List TierEntry → Option (String × ℚ)
  | [] => none
  | e :: rest => if matchesBound x e.bound then some (e.code, e.wRVU) else scanTiers x rest

/-- The `return codes[-1][1], codes[-1][2]` post-loop fallback of
rules.py; the `("", 0)` default corresponds to the IndexError Python
would raise on an empty table (the fixed tables are never empty). -/
def tableLast (codes : List TierEntry) : String × ℚ :=
  match codes.getLast? with
  | some e => (e.code, e.wRVU)
  | none => ("", 0)

/-- The face/ear/... keyword list of `get_excision_code`. -/
def excision_face_terms : List String :=
  ["face", "ear", "eyelid", "nose", "lip", "cheek", "chin",
   "forehead", "temple", "periorbital"]

/-- The `is_face` site test inside `get_excision_code`. -/
def excisionIsFace (anatomic_site : String) : Bool :=
  excision_face_terms.any (fun s => pyIn s (pyLower anatomic_site))

/-- The four excision tier tables of `get_excision_code`, keyed by
(is_malignant, is_face). -/
def excisionTable (is_malignant isFace : Bool) : List TierEntry :=
  if is_malignant then
    if isFace then
      [⟨some (1/2), "11640", 163/100⟩,
       ⟨some 1, "11641", 212/100⟩,
       ⟨some 2, "11642", 255/100⟩,
       ⟨some 3, "11643", 308/100⟩,
       ⟨some 4, "11644", 382/100⟩,
       ⟨none, "11646", 532/100⟩]
    else
      [⟨some (1/2), "11600", 159/100⟩,
       ⟨some 1, "11601", 202/100⟩,
       ⟨some 2, "11602", 221/100⟩,
       ⟨some 3, "11603", 275/100⟩,
       ⟨some 4, "11604", 318/100⟩,
       ⟨none, "11606", 409/100⟩]
  else
    if isFace then
      [⟨some (1/2), "11440", 102/100⟩,
       ⟨some 1, "11441", 149/100⟩,
       ⟨some 2, "11442", 173/100⟩,
       ⟨some 3, "11443", 222/100⟩,
       ⟨some 4, "11444", 282/100⟩,
       ⟨none, "11446", 382/100⟩]
    else
      [⟨some (1/2), "11400", 88/100⟩,
       ⟨some 1, "11401", 125/100⟩,
       ⟨some 2, "11402", 141/100⟩,
       ⟨some 3, "11403", 179/100⟩,
       ⟨some 4, "11404", 235/100⟩,
       ⟨none, "11406", 303/100⟩]

/-- `get_excision_code` from rules.py. -/
def get_excision_code (excised_diameter_cm : ℚ) (anatomic_site : String)
    (is_malignant : Bool) : String × ℚ :=
  let codes := excisionTable is_malignant (excisionIsFace anatomic_site)
  match scanTiers excised_diameter_cm codes with
  | some p => p
  | none => tableLast codes

/-- `calculate_excised_diameter` from rules.py. -/
def calculate_excised_diameter (lesion_diameter_mm margin_mm : ℚ) : ℚ :=
  (lesion_diameter_mm + 2 * margin_mm) / 10

/-- The group-2 keyword list of `classify_anatomic_group`. -/
def group_2_terms : List String :=
  ["face", "ear", "eyelid", "nose", "lip", "cheek", "chin",
   "forehead", "temple", "periorbital", "perioral", "mucous",
   "vermilion", "nasal", "auricular"]

/-- `classify_anatomic_group` from rules.py. -/
def classify_anatomic_group (site : String) : AnatomicGroup :=
  let site_lower := pyLower site
  if group_2_terms.any (fun term => pyIn term site_lower) then
    AnatomicGroup.group_2
  else
    AnatomicGroup.group_1

/-- The six repair tier tables of `get_repair_code`; the Python
`if anatomic_group == GROUP_2 ... else ...` sends every non-GROUP_2
group to the trunk/extremities table. -/
def repairTable (complexity : RepairComplexity) (anatomic_group : AnatomicGroup) :
    List TierEntry :=
  if complexity = RepairComplexity.simple then
    if anatomic_group = AnatomicGroup.group_2 then
      [⟨some (5/2), "12011", 115/100⟩,
       ⟨some 5, "12013", 145/100⟩,
       ⟨some (15/2), "12014", 169/100⟩,
       ⟨some (25/2), "12015", 217/100⟩,
       ⟨some 20, "12016", 286/100⟩,
       ⟨some 30, "12017", 339/100⟩,
       ⟨none, "12018", 454/100⟩]
    else
      [⟨some (5/2), "12001", 82/100⟩,
       ⟨some (15/2), "12002", 114/100⟩,
       ⟨some (25/2), "12004", 149/100⟩,
       ⟨some 20, "12005", 179/100⟩,
       ⟨some 30, "12006", 210/100⟩,
       ⟨none, "12007", 273/100⟩]
  else if complexity = RepairComplexity.intermediate then
    if anatomic_group = AnatomicGroup.group_2 then
      [⟨some (5/2), "12051", 227/100⟩,
       ⟨some 5, "12052", 262/100⟩,
       ⟨some (15/2), "12053", 322/100⟩,
       ⟨some (25/2), "12054", 387/100⟩,
       ⟨some 20, "12055", 491/100⟩,
       ⟨some 30, "12056", 583/100⟩,
       ⟨none, "12057", 684/100⟩]
    else
      [⟨some (5/2), "12031", 195/100⟩,
       ⟨some 5, "12032", 246/100⟩,
       ⟨some (15/2), "12034", 281/100⟩,
       ⟨some (25/2), "12035", 350/100⟩,
       ⟨some 20, "12036", 430/100⟩,
       ⟨some 30, "12037", 507/100⟩,
       ⟨none, "12038", 570/100⟩]
  else
    if anatomic_group = AnatomicGroup.group_2 then
      [⟨some 1, "13131", 364/100⟩,
       ⟨some (5/2), "13132", 452/100⟩,
       ⟨some 5, "13133", 579/100⟩,
       ⟨some (15/2), "13151", 423/100⟩,
       ⟨none, "13152", 561/100⟩]
    else
      [⟨some 1, "13100", 260/100⟩,
       ⟨some (5/2), "13101", 325/100⟩,
       ⟨some 5, "13102", 425/100⟩,
       ⟨none, "13120", 335/100⟩]

/-- `get_repair_code` from rules.py. -/
def get_repair_code (complexity : RepairComplexity) (anatomic_group : AnatomicGroup)
    (total_length_cm : ℚ) : String × ℚ :=
  let codes := repairTable complexity anatomic_group
  match scanTiers total_length_cm codes with
  | some p => p
  | none => tableLast codes

/-- The grouping key `(repair.complexity, repair.anatomic_group)` of
`aggregate_repairs`. -/
def repairKey (r : RepairInfo) : RepairComplexity × AnatomicGroup :=
  (r.complexity, r.anatomic_group)

/-- Append a key to the key list unless already present: the effect of
`groups[key] = []` on a Python dict's (insertion-ordered) key sequence. -/
def insertKey (ks : List (RepairComplexity × AnatomicGroup))
    (k : RepairComplexity × AnatomicGroup) : List (RepairComplexity × AnatomicGroup) :=
  if k ∈ ks then ks else ks ++ [k]

/-- The key sequence of the `groups` dict built by `aggregate_repairs`,
in first-appearance order (Python dict iteration order). -/
def groupKeys (repairs : List RepairInfo) : List (RepairComplexity × AnatomicGroup) :=
  repairs.foldl (fun ks r => insertKey ks (repairKey r)) []

/-- `sum(r.length_cm for r in group_repairs)` for the group of `k`:
`groups[k]` holds exactly the input repairs with key `k`, in input order. -/
def groupTotal (repairs : List RepairInfo) (k : RepairComplexity × AnatomicGroup) : ℚ :=
  ((repairs.filter (fun r => decide (repairKey r = k))).map (fun r => r.length_cm)).sum

/-- `aggregate_repairs` from rules.py: one `AggregatedRepair` per group,
in dict-insertion (first-appearance) order. -/
def aggregate_repairs (repairs : List RepairInfo) : List AggregatedRepair :=
  (groupKeys repairs).map (fun k =>
    let total := groupTotal repairs k
    let cw := get_repair_code k.1 k.2 total
    ⟨k.1, k.2, total, cw.1, cw.2⟩)

/-- `get_ak_destruction_codes` from rules.py: `(code, units, wRVU)` rows. -/
def get_ak_destruction_codes (count : ℤ) : List (String × ℤ × ℚ) :=
  if count ≤ 0 then []
  else if count ≥ 15 then [("17004", 1, 259/100)]
  else
    ("17000", 1, (61 : ℚ)/100) ::
      (if count > 1 then [("17003", count - 1, (9/100 : ℚ) * ((count - 1 : ℤ) : ℚ))] else [])

/-- `get_benign_destruction_codes` from rules.py. -/
def get_benign_destruction_codes (count : ℤ) (is_wart_or_molluscum : Bool) :
    List (String × ℤ × ℚ) :=
  if count ≤ 0 then []
  else if is_wart_or_molluscum then
    if count ≥ 15 then [("17111", 1, 79/100)] else [("17110", 1, 52/100)]
  else
    ("11200", 1, (80 : ℚ)/100) ::
      (if count > 15 then
        [("11201", (count - 15 + 9) / 10, (28/100 : ℚ) * (((count - 15 + 9) / 10 : ℤ) : ℚ))]
       else [])

/-- The shave-biopsy rows (`11102`/`11103`) of `get_biopsy_codes`. -/
def shaveSegment (shave_count : ℤ) : List (String × ℤ × ℚ) :=
  if shave_count > 0 then
    ("11102", 1, (64 : ℚ)/100) ::
      (if shave_count > 1 then
        [("11103", shave_count - 1, (37/100 : ℚ) * ((shave_count - 1 : ℤ) : ℚ))]
       else [])
  else []

/-- The punch-biopsy rows (`11104`/`11105`) of `get_biopsy_codes`. -/
def punchSegment (punch_count : ℤ) : List (String × ℤ × ℚ) :=
  if punch_count > 0 then
    ("11104", 1, (81 : ℚ)/100) ::
      (if punch_count > 1 then
        [("11105", punch_count - 1, (44/100 : ℚ) * ((punch_count - 1 : ℤ) : ℚ))]
       else [])
  else []

/-- The incisional-biopsy rows (`11106`/`11107`) of `get_biopsy_codes`. -/
def incisionalSegment (incisional_count : ℤ) : List (String × ℤ × ℚ) :=
  if incisional_count > 0 then
    ("11106", 1, (98 : ℚ)/100) ::
      (if incisional_count > 1 then
        [("11107", incisional_count - 1, (54/100 : ℚ) * ((incisional_count - 1 : ℤ) : ℚ))]
       else [])
  else []

/-- `get_biopsy_codes` from rules.py: the three families are appended to
one list in order. -/
def get_biopsy_codes (shave_count punch_count incisional_count : ℤ) :
    List (String × ℤ × ℚ) :=
  shaveSegment shave_count ++ punchSegment punch_count ++ incisionalSegment incisional_count

/-- `get_il_injection_code` from rules.py. -/
def get_il_injection_code (lesion_count : ℤ) : String × ℚ :=
  if lesion_count ≤ 7 then ("11900", 51/100) else ("11901", 78/100)

/-- The `NCCI_BUNDLES` dict of rules.py as an association list
(keys are unique, in source order); values model `Optional[str]`. -/
def NCCI_BUNDLES : List ((String × String) × Option String) :=
  [(("99213", "17000"), some "25"),
   (("99214", "17000"), some "25"),
   (("99215", "17000"), some "25"),
   (("99213", "11102"), some "25"),
   (("99214", "11102"), some "25"),
   (("99215", "11102"), some "25"),
   (("99213", "11104"), some "25"),
   (("99214", "11104"), some "25"),
   (("99215", "11104"), some "25"),
   (("12001", "11400"), none),
   (("12001", "11401"), none),
   (("17000", "17003"), some "addon")]

/-- Python `pair in NCCI_BUNDLES` / `NCCI_BUNDLES[pair]` combined:
`some v` when the key is present with value `v`, `none` when absent. -/
def bundleLookup (p : String × String) : Option (Option String) :=
  (NCCI_BUNDLES.find? (fun e => decide (e.1 = p))).map (fun e => e.2)

/-- `check_ncci_edit` from rules.py; the Python return value
`None` is `none`, a string `s` is `some s`. -/
def check_ncci_edit (code1 code2 : String) : Option String :=
  match bundleLookup (code1, code2) with
  | some v => v
  | none =>
    match bundleLookup (code2, code1) with
    | some v => v
    | none => some "ok"

/-- The `em_codes` list inside `needs_modifier_25`. -/
def em_codes_list : List String :=
  ["99202", "99203", "99204", "99205",
   "99211", "99212", "99213", "99214", "99215"]

/-- `needs_modifier_25` from rules.py: the `for proc_code in
procedure_codes` early-return loop is `List.any`, the final
`return len(procedure_codes) > 0` is the last branch. -/
def needs_modifier_25 (em_code : String) (procedure_codes : List String) : Bool :=
  if em_code ∈ em_codes_list then
    if procedure_codes.any (fun p => decide (check_ncci_edit em_code p = some "25")) then
      true
    else
      decide (0 < procedure_codes.length)
  else false


/-! ## Helper lemmas -/

theorem bundleLookup_eq_some (pr : String × String) (v : Option String)
    (h : bundleLookup pr = some v) :
    ∃ e ∈ NCCI_BUNDLES, e.1 = pr ∧ e.2 = v := by
  unfold bundleLookup at h
  cases hf : NCCI_BUNDLES.find? (fun e => decide (e.1 = pr)) with
  | none => rw [hf] at h; simp at h
  | some e =>
    rw [hf] at h
    simp at h
    have hpe := List.find?_some hf
    simp at hpe
    exact ⟨e, List.mem_of_find?_eq_some hf, hpe, h⟩

theorem ncci_no_reverse : ∀ e1 ∈ NCCI_BUNDLES, ∀ e2 ∈ NCCI_BUNDLES,
    e1.1.1 = e2.1.2 → e1.1.2 = e2.1.1 → e1.2 = e2.2 := by decide

theorem scanTiers_isSome (x : ℚ) :
    ∀ codes : List TierEntry, (∃ e ∈ codes, e.bound = none) →
      ∃ pr, scanTiers x codes = some pr := by
  intro codes h
  induction codes with
  | nil => simp at h
  | cons e rest ih =>
    by_cases hb : matchesBound x e.bound = true
    · exact ⟨(e.code, e.wRVU), by simp [scanTiers, hb]⟩
    · have hbn : e.bound ≠ none := by
        intro hc
        exact hb (by simp [matchesBound, hc])
      obtain ⟨e', he', hbe'⟩ := h
      rcases List.mem_cons.mp he' with rfl | hmem
      · exact absurd hbe' hbn
      · obtain ⟨pr, hpr⟩ := ih ⟨e', hmem, hbe'⟩
        exact ⟨pr, by simp [scanTiers, hb, hpr]⟩

theorem scanTiers_mem (x : ℚ) :
    ∀ (codes : List TierEntry) (pr : String × ℚ), scanTiers x codes = some pr →
      pr ∈ codes.map (fun e => (e.code, e.wRVU)) := by
  intro codes
  induction codes with
  | nil => intro pr h; simp [scanTiers] at h
  | cons e rest ih =>
    intro pr h
    by_cases hb : matchesBound x e.bound = true
    · simp [scanTiers, hb] at h
      simp [← h]
    · simp [scanTiers, hb] at h
      simp [ih pr h]

theorem mem_insertKey (ks : List (RepairComplexity × AnatomicGroup))
    (k a : RepairComplexity × AnatomicGroup) :
    a ∈ insertKey ks k ↔ a ∈ ks ∨ a = k := by
  unfold insertKey
  split
  · rename_i hk
    constructor
    · exact Or.inl
    · rintro (h | rfl)
      · exact h
      · exact hk
  · simp [List.mem_append]

theorem nodup_insertKey (ks : List (RepairComplexity × AnatomicGroup))
    (k : RepairComplexity × AnatomicGroup) (h : ks.Nodup) :
    (insertKey ks k).Nodup := by
  unfold insertKey
  split
  · exact h
  · rename_i hk
    simp [List.nodup_append, h, hk]

theorem foldl_insertKey_mem :
    ∀ (rs : List RepairInfo) (ks : List (RepairComplexity × AnatomicGroup))
      (a : RepairComplexity × AnatomicGroup),
      (a ∈ rs.foldl (fun ks r => insertKey ks (repairKey r)) ks) ↔
        a ∈ ks ∨ a ∈ rs.map repairKey := by
  intro rs
  induction rs with
  | nil => simp
  | cons r rest ih =>
    intro ks a
    simp only [List.foldl_cons, List.map_cons, List.mem_cons]
    rw [ih, mem_insertKey]
    tauto

theorem foldl_insertKey_nodup :
    ∀ (rs : List RepairInfo) (ks : List (RepairComplexity × AnatomicGroup)),
      ks.Nodup → (rs.foldl (fun ks r => insertKey ks (repairKey r)) ks).Nodup := by
  intro rs
  induction rs with
  | nil => intro ks h; simpa using h
  | cons r rest ih =>
    intro ks h
    simp only [List.foldl_cons]
    exact ih _ (nodup_insertKey ks (repairKey r) h)

theorem groupKeys_mem (rs : List RepairInfo) (a : RepairComplexity × AnatomicGroup) :
    a ∈ groupKeys rs ↔ a ∈ rs.map repairKey := by
  unfold groupKeys
  rw [foldl_insertKey_mem]
  simp

theorem groupKeys_nodup (rs : List RepairInfo) : (groupKeys rs).Nodup :=
  foldl_insertKey_nodup rs [] (by simp)

theorem groupKeys_perm (rs rs' : List RepairInfo) (h : rs.Perm rs') :
    (groupKeys rs).Perm (groupKeys rs') := by
  rw [List.perm_ext_iff_of_nodup (groupKeys_nodup rs) (groupKeys_nodup rs')]
  intro a
  rw [groupKeys_mem, groupKeys_mem]
  exact (h.map repairKey).mem_iff

theorem groupTotal_perm (rs rs' : List RepairInfo) (h : rs.Perm rs')
    (k : RepairComplexity × AnatomicGroup) :
    groupTotal rs k = groupTotal rs' k := by
  unfold groupTotal
  exact ((h.filter (fun r => decide (repairKey r = k))).map (fun r => r.length_cm)).sum_eq

/-! ## Claim theorems -/

/-- C1: for every count c with 1 ≤ c ≤ 14, `get_ak_destruction_codes`
returns one unit of first-lesion code 17000 plus, exactly when c > 1, one
add-on row 17003 with units c − 1 and wRVU 0.09·(c − 1); the units of the
returned rows sum to c, so the first lesion is not double-billed inside the
add-on units; for every c ≥ 15 it returns exactly the single flat-rate row
17004. -/
theorem ak_destruction_tiering (c : ℤ) :
    (1 ≤ c → c ≤ 14 →
      get_ak_destruction_codes c =
        ("17000", 1, (61 : ℚ)/100) ::
          (if c > 1 then [("17003", c - 1, (9/100 : ℚ) * ((c - 1 : ℤ) : ℚ))] else []) ∧
      ((get_ak_destruction_codes c).map (fun e => e.2.1)).sum = c) ∧
    (15 ≤ c → get_ak_destruction_codes c = [("17004", 1, (259 : ℚ)/100)]) := by
  constructor
  · intro h1 h2
    constructor
    · unfold get_ak_destruction_codes
      rw [if_neg (by omega), if_neg (by omega)]
    · unfold get_ak_destruction_codes
      rw [if_neg (by omega), if_neg (by omega)]
      by_cases hc : c > 1
      · simp [hc]
      · simp [hc]
        omega
  · intro h
    unfold get_ak_destruction_codes
    rw [if_neg (by omega), if_pos (by omega)]

/-- Witness for C1 at counts 3 and 20. -/
theorem ak_destruction_tiering_witness :
    (get_ak_destruction_codes 3 =
      ("17000", 1, (61 : ℚ)/100) ::
        (if (3 : ℤ) > 1 then
          [("17003", (3 : ℤ) - 1, (9/100 : ℚ) * (((3 : ℤ) - 1 : ℤ) : ℚ))] else []) ∧
      ((get_ak_destruction_codes 3).map (fun e => e.2.1)).sum = 3) ∧
    get_ak_destruction_codes 20 = [("17004", 1, (259 : ℚ)/100)] := by
  exact ⟨(ak_destruction_tiering 3).1 (by norm_num) (by norm_num),
    (ak_destruction_tiering 20).2 (by norm_num)⟩

/-- C2: aggregating the repairs [2.5 cm simple trunk group 1,
3.0 cm simple trunk group 1] yields the single AggregatedRepair with
total length 5.5 cm resolved to the 7.5 cm tier code 12002 (wRVU 1.14) of
the simple / group 1 table, not the 2.5 cm tier code. -/
theorem aggregate_repairs_trunk_example :
    aggregate_repairs
      [⟨5/2, RepairComplexity.simple, "trunk", AnatomicGroup.group_1⟩,
       ⟨3, RepairComplexity.simple, "trunk", AnatomicGroup.group_1⟩] =
      [⟨RepairComplexity.simple, AnatomicGroup.group_1, 11/2, "12002", (114 : ℚ)/100⟩] := by
  norm_num [aggregate_repairs, groupKeys, insertKey, repairKey, groupTotal,
    get_repair_code, repairTable, scanTiers, matchesBound, List.filter]

/-- C3: the AK, benign-destruction and three biopsy families all return
the empty list for counts ≤ 0, but `get_il_injection_code` has no such
guard: at count 0 it still returns the billable line (11900, 0.51) — the
divergence between the code and the claim. -/
theorem nonpositive_count_families :
    (∀ c : ℤ, c ≤ 0 → get_ak_destruction_codes c = []) ∧
    (∀ (c : ℤ) (b : Bool), c ≤ 0 → get_benign_destruction_codes c b = []) ∧
    (∀ c : ℤ, c ≤ 0 →
      shaveSegment c = [] ∧ punchSegment c = [] ∧ incisionalSegment c = [] ∧
      get_biopsy_codes c c c = []) ∧
    get_il_injection_code 0 = ("11900", (51 : ℚ)/100) := by
  refine ⟨?_, ?_, ?_, rfl⟩
  · intro c h
    unfold get_ak_destruction_codes
    rw [if_pos h]
  · intro c b h
    unfold get_benign_destruction_codes
    rw [if_pos h]
  · intro c h
    have h1 : ¬ c > 0 := by omega
    refine ⟨?_, ?_, ?_, ?_⟩ <;>
      simp [shaveSegment, punchSegment, incisionalSegment, get_biopsy_codes, h1]

/-- Witness for C3 at count −2 (and the unguarded injection code at 0). -/
theorem nonpositive_count_families_witness :
    get_ak_destruction_codes (-2) = [] ∧
    get_benign_destruction_codes (-2) false = [] ∧
    get_biopsy_codes (-2) (-2) (-2) = [] ∧
    get_il_injection_code 0 = ("11900", (51 : ℚ)/100) := by
  exact ⟨nonpositive_count_families.1 (-2) (by norm_num),
    nonpositive_count_families.2.1 (-2) false (by norm_num),
    (nonpositive_count_families.2.2.1 (-2) (by norm_num)).2.2.2,
    nonpositive_count_families.2.2.2⟩

/-- C4: `classify_anatomic_group` maps "left nasal ala" to group 2 as
claimed, but it also maps "left forearm" to group 2 — not group 1 —
because the case-insensitive substring match finds the group-2 keyword
"ear" inside "forearm". -/
theorem classify_forearm_group2 :
    classify_anatomic_group "left nasal ala" = AnatomicGroup.group_2 ∧
    classify_anatomic_group "left forearm" = AnatomicGroup.group_2 ∧
    pyIn "ear" (pyLower "left forearm") = true := by decide

/-- C5: `check_ncci_edit` is order-independent; any pair absent from the
bundle table in both orders returns "ok"; the (99214, 17000) pair yields
modifier "25" and (11102, 99202) yields "ok". -/
theorem check_ncci_edit_order_independent :
    (∀ a b : String, check_ncci_edit a b = check_ncci_edit b a) ∧
    (∀ a b : String, bundleLookup (a, b) = none → bundleLookup (b, a) = none →
      check_ncci_edit a b = some "ok") ∧
    check_ncci_edit "99214" "17000" = some "25" ∧
    check_ncci_edit "11102" "99202" = some "ok" := by
  refine ⟨?_, ?_, by decide, by decide⟩
  · intro a b
    cases h1 : bundleLookup (a, b) with
    | none =>
      cases h2 : bundleLookup (b, a) with
      | none => simp [check_ncci_edit, h1, h2]
      | some w => simp [check_ncci_edit, h1, h2]
    | some v =>
      cases h2 : bundleLookup (b, a) with
      | none => simp [check_ncci_edit, h1, h2]
      | some w =>
        obtain ⟨e1, he1, hk1, hv1⟩ := bundleLookup_eq_some _ _ h1
        obtain ⟨e2, he2, hk2, hv2⟩ := bundleLookup_eq_some _ _ h2
        have hvw : v = w := by
          rw [← hv1, ← hv2]
          exact ncci_no_reverse e1 he1 e2 he2
            (by rw [hk1, hk2]) (by rw [hk1, hk2])
        simp [check_ncci_edit, h1, h2, hvw]
  · intro a b h1 h2
    simp [check_ncci_edit, h1, h2]

/-- Witness for C5: the pair (11102, 99202) is absent from the table in
both orders and resolves to "ok". -/
theorem check_ncci_edit_order_independent_witness :
    check_ncci_edit "11102" "99202" = some "ok" := by
  exact check_ncci_edit_order_independent.2.1 "11102" "99202" (by decide) (by decide)

/-- C6: for complex group-1 repairs past the 5.0 cm top explicit tier,
`get_repair_code` returns the bare add-on code 13120 as one fixed
(code, wRVU) pair — the same pair at 6 cm and at 12 cm — with no base code
and no per-5 cm unit growth, contrary to the claimed base-plus-repeatable
add-on scheme. -/
theorem complex_group1_single_code :
    get_repair_code RepairComplexity.complex AnatomicGroup.group_1 6 =
      ("13120", (335 : ℚ)/100) ∧
    get_repair_code RepairComplexity.complex AnatomicGroup.group_1 12 =
      ("13120", (335 : ℚ)/100) := by
  constructor <;> norm_num [get_repair_code, repairTable, scanTiers, matchesBound]

/-- C7 counterexample: `aggregate_repairs` emits its lines in
first-appearance order of the (complexity, group) keys, so swapping two
repairs of different keys changes the output list: the claim as stated
(identical result on the permuted input) is false. -/
theorem aggregate_repairs_order_sensitive :
    aggregate_repairs
      [⟨1, RepairComplexity.simple, "trunk", AnatomicGroup.group_1⟩,
       ⟨1, RepairComplexity.complex, "face", AnatomicGroup.group_2⟩] ≠
    aggregate_repairs
      [⟨1, RepairComplexity.complex, "face", AnatomicGroup.group_2⟩,
       ⟨1, RepairComplexity.simple, "trunk", AnatomicGroup.group_1⟩] := by decide

/-- C7 amended: `aggregate_repairs` is invariant under input reordering up
to permutation of the output — a permutation of the repair list permutes
the AggregatedRepair lines (same lines, same totals, same codes;
only the list order can change). -/
theorem aggregate_repairs_perm_invariant :
    ∀ rs rs' : List RepairInfo, rs.Perm rs' →
      (aggregate_repairs rs).Perm (aggregate_repairs rs') := by
  intro rs rs' h
  unfold aggregate_repairs
  have hmap :
      ((groupKeys rs').map (fun k =>
        let total := groupTotal rs k
        let cw := get_repair_code k.1 k.2 total
        (⟨k.1, k.2, total, cw.1, cw.2⟩ : AggregatedRepair))) =
      ((groupKeys rs').map (fun k =>
        let total := groupTotal rs' k
        let cw := get_repair_code k.1 k.2 total
        (⟨k.1, k.2, total, cw.1, cw.2⟩ : AggregatedRepair))) := by
    apply List.map_congr_left
    intro a _
    simp only [groupTotal_perm rs rs' h a]
  rw [← hmap]
  exact (groupKeys_perm rs rs' h).map _

/-- Witness for the amended C7 on a concrete two-element swap. -/
theorem aggregate_repairs_perm_invariant_witness :
    (aggregate_repairs
      [⟨1, RepairComplexity.simple, "trunk", AnatomicGroup.group_1⟩,
       ⟨1, RepairComplexity.complex, "face", AnatomicGroup.group_2⟩]).Perm
    (aggregate_repairs
      [⟨1, RepairComplexity.complex, "face", AnatomicGroup.group_2⟩,
       ⟨1, RepairComplexity.simple, "trunk", AnatomicGroup.group_1⟩]) := by
  exact aggregate_repairs_perm_invariant _ _ (List.Perm.swap _ _ _)

/-- C8: `needs_modifier_25` returns true exactly when the E/M code is in
the recognized E/M list and at least one procedure code is present. -/
theorem needs_modifier_25_iff :
    ∀ (em_code : String) (procedure_codes : List String),
      needs_modifier_25 em_code procedure_codes = true ↔
        em_code ∈ em_codes_list ∧ procedure_codes ≠ [] := by
  intro em procs
  unfold needs_modifier_25
  by_cases hem : em ∈ em_codes_list
  · rw [if_pos hem]
    by_cases hany : procs.any (fun p => decide (check_ncci_edit em p = some "25")) = true
    · rw [if_pos hany]
      simp only [true_iff]
      refine ⟨hem, ?_⟩
      obtain ⟨p, hp, -⟩ := List.any_eq_true.mp hany
      exact List.ne_nil_of_mem hp
    · rw [if_neg hany]
      simp [hem, List.length_pos]
  · rw [if_neg hem]
    simp [hem]

/-- Witness for C8: 99213 with one procedure code needs the modifier. -/
theorem needs_modifier_25_iff_witness :
    needs_modifier_25 "99213" ["17000"] = true := by
  exact (needs_modifier_25_iff "99213" ["17000"]).mpr ⟨by decide, by decide⟩

/-- C9: for every complexity, group, site, malignancy flag and every
rational length or diameter (negative included), the ascending tier scan
hits a row — the last row of every selected table has an infinite bound —
so `get_repair_code` and `get_excision_code` return exactly the value
found by the scan (the post-loop fallback is unreachable) and that value
is a (code, wRVU) pair of the selected table. -/
theorem tier_scan_always_hits :
    (∀ (c : RepairComplexity) (g : AnatomicGroup) (x : ℚ),
      scanTiers x (repairTable c g) = some (get_repair_code c g x) ∧
      get_repair_code c g x ∈ (repairTable c g).map (fun e => (e.code, e.wRVU))) ∧
    (∀ (x : ℚ) (site : String) (m : Bool),
      scanTiers x (excisionTable m (excisionIsFace site)) =
        some (get_excision_code x site m) ∧
      get_excision_code x site m ∈
        (excisionTable m (excisionIsFace site)).map (fun e => (e.code, e.wRVU))) := by
  constructor
  · intro c g x
    have h : ∃ e ∈ repairTable c g, e.bound = none := by
      cases c <;> cases g <;> decide
    obtain ⟨pr, hpr⟩ := scanTiers_isSome x _ h
    have hg : get_repair_code c g x = pr := by
      simp [get_repair_code, hpr]
    rw [hg]
    exact ⟨hpr, scanTiers_mem x _ pr hpr⟩
  · intro x site m
    have h : ∃ e ∈ excisionTable m (excisionIsFace site), e.bound = none := by
      cases m <;> cases hf : excisionIsFace site <;> decide
    obtain ⟨pr, hpr⟩ := scanTiers_isSome x _ h
    have hg : get_excision_code x site m = pr := by
      simp [get_excision_code, hpr]
    rw [hg]
    exact ⟨hpr, scanTiers_mem x _ pr hpr⟩

/-- C10: `classify_anatomic_group` never returns group_3 even though the
enum declares it; every site string classifies to group_1 or group_2. -/
theorem classify_no_group3 :
    ∀ site : String,
      classify_anatomic_group site ≠ AnatomicGroup.group_3 ∧
      (classify_anatomic_group site = AnatomicGroup.group_1 ∨
       classify_anatomic_group site = AnatomicGroup.group_2) := by
  intro site
  cases h : group_2_terms.any (fun term => pyIn term (pyLower site)) <;>
    simp [classify_anatomic_group, h]

end DermBill
